import Mathlib

/-!
Shallow embedding of the hybrid Arrhenius + ML shelf-life predictor
(`services/shelf_life.py`) and verification of its specification claims.

Python floats are modelled as real numbers; `numpy` statistics
(`np.std`, `np.mean`, `np.exp`) as their mathematical counterparts;
dictionaries with optional keys as structures with `Option` fields; raised
exceptions as `Except.error`; the history file on disk as a `FileState`.
-/

namespace ShelfLife

/-- Gas constant `R = 8.314` (J/mol·K). -/
noncomputable def R : ℝ := 8.314

/-- Reference temperature in Celsius, `T_REF_C = 5.0`. -/
noncomputable def T_REF_C : ℝ := 5.0

/-- Reference temperature in Kelvin, `T_REF_K = T_REF_C + 273.15`. -/
noncomputable def T_REF_K : ℝ := T_REF_C + 273.15

/-- Optimal relative humidity, `OPTIMAL_RH = 90.0`. -/
noncomputable def OPTIMAL_RH : ℝ := 90.0

/-- The `ALPHA_CONFIG` dictionary. -/
structure AlphaConfig where
  base : ℝ
  min : ℝ
  max : ℝ
  sensor_weight : ℝ
  ml_weight : ℝ
  history_limit : ℕ

/-- `ALPHA_CONFIG` from `shelf_life.py`. -/
noncomputable def ALPHA_CONFIG : AlphaConfig :=
  { base := 0.35, min := 0.1, max := 0.8,
    sensor_weight := 0.30, ml_weight := 0.40, history_limit := 120 }

/-- One entry of the `KINETIC_DATA` table. -/
structure KineticParams where
  Ea : ℝ
  A : ℝ
  ref_life_days : ℝ

/-- The `KINETIC_DATA` lookup table, keyed by lower-cased product name;
`KINETIC_DATA.get(fruit)` returning `None` is modelled by `Option`. -/
noncomputable def KINETIC_DATA : String → Option KineticParams
  | "apple" => some { Ea := 70000.0, A := 2.0e11, ref_life_days := 60 }
  | "banana" => some { Ea := 62000.0, A := 9.0e9, ref_life_days := 14 }
  | "tomato" => some { Ea := 36000.0, A := 1.5e5, ref_life_days := 14 }
  | "mango" => some { Ea := 46000.0, A := 2.5e7, ref_life_days := 12 }
  | "potato" => some { Ea := 60000.0, A := 4.0e10, ref_life_days := 90 }
  | _ => none

/-- The `ShelfLifeResult` dataclass. -/
structure ShelfLifeResult where
  ml_prediction : ℝ
  arrhenius_prediction : ℝ
  hybrid_prediction : ℝ
  alpha_used : ℝ
  sensor_temperature : ℝ
  sensor_humidity : ℝ
  sensor_samples : ℕ
  sensor_stability : ℝ
  ml_performance : ℝ

/-- A history entry dictionary.  Keys read back with `.get(...)` (and hence
possibly absent in a hand-edited or externally annotated file) are `Option`;
`predict` always writes them as `some`. -/
structure Entry where
  batch_id : Option String := none
  fruit : String := ""
  temperature : ℝ := 0
  humidity : ℝ := 0
  ml_prediction : Option ℝ := none
  arrhenius_prediction : Option ℝ := none
  hybrid_prediction : Option ℝ := none
  alpha_used : Option ℝ := none
  sensor_samples : ℕ := 0
  actual_shelf_life : Option ℝ := none

/-- One sensor reading dictionary; `r.get("temperature", fallback)` is
modelled by an `Option` field read with `getD`. -/
structure Reading where
  temperature : Option ℝ := none
  humidity : Option ℝ := none

/-- `np.mean` of a Python list. -/
noncomputable def mean (xs : List ℝ) : ℝ := xs.sum / xs.length

/-- `np.std` (population standard deviation, `ddof = 0`). -/
noncomputable def std (xs : List ℝ) : ℝ :=
  Real.sqrt ((xs.map (fun x => (x - mean xs) ^ 2)).sum / xs.length)

/-- Python `l[-n:]` for `n > 0`: the last `n` elements of `l`. -/
def lastN (n : ℕ) (l : List α) : List α := l.drop (l.length - n)

/-- `_arrhenius_rate_constant`: `A * exp(-Ea / (R * temp_k))`. -/
noncomputable def arrhenius_rate_constant (Ea A temp_k : ℝ) : ℝ :=
  A * Real.exp (-Ea / (R * temp_k))

/-- `_humidity_factor`: clamp humidity to `[30, 100]`, penalise deviation
from `OPTIMAL_RH` by `exp(-0.02 * deviation ** 1.2)`. -/
noncomputable def humidity_factor (humidity : ℝ) : ℝ :=
  let rh := max 30.0 (min 100.0 humidity)
  let deviation := |rh - OPTIMAL_RH|
  Real.exp (-0.02 * deviation ^ (1.2 : ℝ))

/-- `_arrhenius_prediction`; the `ValueError` for an unsupported product is
`Except.error`. -/
noncomputable def arrhenius_prediction (fruit : String) (temp_c humidity : ℝ) :
    Except String ℝ :=
  match KINETIC_DATA fruit with
  | none => .error ("Unsupported product type '" ++ fruit ++ "' for shelf-life prediction")
  | some params =>
    let temp_k := temp_c + 273.15
    let k_input := arrhenius_rate_constant params.Ea params.A temp_k
    let k_ref := arrhenius_rate_constant params.Ea params.A T_REF_K
    let ratio := k_ref / k_input
    let rh_adj := humidity_factor humidity
    .ok (params.ref_life_days * ratio * rh_adj)

/-- `_assess_sensor_stability`. -/
noncomputable def assess_sensor_stability (readings : List Reading)
    (fallback_temp fallback_humidity : ℝ) : ℝ :=
  match readings with
  | [] => 0.5
  | _ =>
    let temps := readings.map (fun r => r.temperature.getD fallback_temp)
    let hums := readings.map (fun r => r.humidity.getD fallback_humidity)
    if temps.length < 2 then 0.6
    else
      let temp_cv := std temps / (mean temps + 1e-6)
      let hum_cv := std hums / (mean hums + 1e-6)
      let temp_score := max 0.0 (1 - temp_cv * 10)
      let hum_score := max 0.0 (1 - hum_cv * 5)
      (temp_score + hum_score) / 2

/-- Python truthiness of an optional float (`None`, `0.0` are falsy). -/
noncomputable def truthyOpt (o : Option ℝ) : Bool :=
  match o with
  | none => false
  | some v => @decide (v ≠ 0) (Classical.propDecidable _)

/-- `_assess_ml_performance`. -/
noncomputable def assess_ml_performance (history : List Entry) : ℝ :=
  match history with
  | [] => 0.5
  | _ =>
    let validated := history.filter (fun h => truthyOpt h.actual_shelf_life)
    let scores : List ℝ :=
      if validated.isEmpty then []
      else
        (lastN 20 validated).filterMap (fun entry =>
          if truthyOpt entry.actual_shelf_life && truthyOpt entry.hybrid_prediction then
            match entry.actual_shelf_life, entry.hybrid_prediction with
            | some actual, some predicted =>
              some (max 0.0 (1 - |actual - predicted| / max actual 1e-6))
            | _, _ => none
          else none)
    if !scores.isEmpty then mean scores
    else
      let recent := lastN 10 history
      let preds := recent.filterMap (fun entry => entry.ml_prediction)
      if 1 < preds.length then
        max 0.0 (min 1.0 (1 - std preds / (mean preds + 1e-6)))
      else 0.5

/-- `_calculate_alpha`. -/
noncomputable def calculate_alpha (sensor_stability ml_performance : ℝ)
    (alpha_override : Option ℝ) : ℝ :=
  match alpha_override with
  | some o => max 0.0 (min 1.0 o)
  | none =>
    let alpha := ALPHA_CONFIG.base
      + (sensor_stability - 0.5) * ALPHA_CONFIG.sensor_weight
      - (ml_performance - 0.5) * ALPHA_CONFIG.ml_weight
    max ALPHA_CONFIG.min (min ALPHA_CONFIG.max alpha)

/-- Python `str.strip().lower()` for ASCII strings: surrounding whitespace
dropped, every character lower-cased. -/
def pyStripLower (s : String) : String :=
  ⟨(((s.data.dropWhile (·.isWhitespace)).reverse.dropWhile
      (·.isWhitespace)).reverse).map Char.toLower⟩

/-- Python `str.capitalize()` for ASCII strings: first character upper-cased,
the rest lower-cased. -/
def pyCapitalize (s : String) : String :=
  match s.data with
  | [] => ⟨[]⟩
  | c :: cs => ⟨c.toUpper :: cs.map Char.toLower⟩

/-- The loaded joblib model: `feature_names_in_` is `none` when the attribute
is absent (`hasattr` fails); `predictFn` is the model's `predict` on a
single-row dataframe given as an ordered column/value list. -/
structure MLModel where
  feature_names : Option (List String)
  predictFn : List (String × ℝ) → ℝ

/-- The single-row dataframe built by `_ml_prediction`: the payload holds the
two numeric features plus a one-hot indicator for every `Type_*` column, and
`reindex(columns=feature_columns, fill_value=0)` reads each feature column
from the payload, defaulting to `0`. -/
noncomputable def feature_row (feature_columns : List String) (fruit : String)
    (temp_c humidity : ℝ) : List (String × ℝ) :=
  feature_columns.map (fun column =>
    (column,
      if column = "Temperature_C" then temp_c
      else if column = "Humidity_%" then humidity
      else if column.startsWith "Type_" then
        (if column = "Type_" ++ pyCapitalize fruit then 1 else 0)
      else 0))

/-- `_ml_prediction`; the `ValueError` for missing feature metadata is
`Except.error`. -/
noncomputable def ml_prediction (model : MLModel) (fruit : String)
    (temp_c humidity : ℝ) : Except String ℝ :=
  match model.feature_names with
  | none => .error "Loaded ML model is missing feature metadata"
  | some feature_columns =>
    .ok (model.predictFn (feature_row feature_columns fruit temp_c humidity))

/-- State of the history file on disk: absent, present but unparseable, or
holding a parsed list of entries. -/
inductive FileState where
  | absent
  | corrupt
  | stored (entries : List Entry)

/-- `_load_history`: missing file or parse failure degrade to `[]`. -/
def load_history : FileState → List Entry
  | .absent => []
  | .corrupt => []
  | .stored entries => entries

/-- `_save_history`: keep only the last `ALPHA_CONFIG["history_limit"]`
entries, then write the file. -/
noncomputable def save_history (history : List Entry) : FileState :=
  .stored (lastN ALPHA_CONFIG.history_limit history)

/-- `_append_history`: reload, append one entry, save. -/
noncomputable def append_history (fs : FileState) (entry : Entry) : FileState :=
  save_history (load_history fs ++ [entry])

/-- Marker for a sub-model actually producing a prediction during a
`predict` call. -/
inductive SubModel where
  | regressor
  | kinetic
deriving DecidableEq

/-- `ShelfLifePredictor.predict`.  Returns the call result (or the raised
error), the resulting history-file state, and the trace of sub-models that
produced a prediction, in invocation order (`_ml_prediction` runs first,
then `_arrhenius_prediction`). -/
noncomputable def predict (model : MLModel) (fs : FileState)
    (product_type : String) (temperature_c humidity_percent : ℝ)
    (sensor_readings : List Reading)
    (alpha_override : Option ℝ) (batch_id : Option String) :
    Except String ShelfLifeResult × FileState × List SubModel :=
  let fruit := pyStripLower product_type
  let history := load_history fs
  let sensor_stability :=
    assess_sensor_stability sensor_readings temperature_c humidity_percent
  let ml_performance := assess_ml_performance history
  let alpha := calculate_alpha sensor_stability ml_performance alpha_override
  match ml_prediction model fruit temperature_c humidity_percent with
  | .error e => (.error e, fs, [])
  | .ok ml_pred =>
    match arrhenius_prediction fruit temperature_c humidity_percent with
    | .error e => (.error e, fs, [.regressor])
    | .ok arr_pred =>
      let hybrid := alpha * arr_pred + (1 - alpha) * ml_pred
      let entry : Entry :=
        { batch_id := batch_id, fruit := fruit,
          temperature := temperature_c, humidity := humidity_percent,
          ml_prediction := some ml_pred,
          arrhenius_prediction := some arr_pred,
          hybrid_prediction := some hybrid,
          alpha_used := some alpha,
          sensor_samples := sensor_readings.length }
      (.ok { ml_prediction := ml_pred,
             arrhenius_prediction := arr_pred,
             hybrid_prediction := hybrid,
             alpha_used := alpha,
             sensor_temperature := temperature_c,
             sensor_humidity := humidity_percent,
             sensor_samples := sensor_readings.length,
             sensor_stability := sensor_stability,
             ml_performance := ml_performance },
       append_history fs entry,
       [.regressor, .kinetic])

/-- Lift a predicate over the success value of an `Except`; trivially true on
an error.  `onOk P out` reads "whenever `out` is a successful result `r`,
`P r` holds". -/
def onOk (P : α → Prop) : Except ε α → Prop
  | .ok a => P a
  | .error _ => True

/- ------------------- File-write crash model (for the save path) -------- -/

/-- A file-system operation performed while persisting the history. -/
inductive FSOp where
  | write (path : String) (contents : String)
  | rename (srcPath : String) (dstPath : String) (contents : String)
deriving DecidableEq

/-- Trace of file operations performed by `_save_history` for a serialized
payload: a single direct `Path.write_text` to the history file — no
temporary file and no rename. -/
def save_history_ops (path : String) (payload : String) : List FSOp :=
  [.write path payload]

/-- Contents of the target file after an operation completes. -/
def afterOp (target cur : String) : FSOp → String
  | .write p c => if p = target then c else cur
  | .rename _ dst c => if dst = target then c else cur

/-- Contents the target file can hold if the process crashes during one
operation: a plain `write` truncates then writes, so any prefix of the new
contents can be observed; a `rename` is atomic, so only the prior contents. -/
def midStates (target cur : String) : FSOp → List String
  | .write p c =>
    if p = target then (List.range (c.length + 1)).map (fun n => c.take n)
    else [cur]
  | .rename _ _ _ => [cur]

/-- All contents the target file can hold if the process crashes anywhere
during a sequence of operations (before, during or between operations). -/
def crashStates (target cur : String) : List FSOp → List String
  | [] => [cur]
  | op :: rest => midStates target cur op ++ crashStates target (afterOp target cur op) rest

/-- A sequence of file operations is crash-safe for a target file when every
crash leaves the target holding either its complete initial contents or its
complete final contents. -/
def crashSafe (target initial : String) (ops : List FSOp) : Prop :=
  ∀ s ∈ crashStates target initial ops,
    s = initial ∨ s = (ops.foldl (afterOp target) initial)

instance (target initial : String) (ops : List FSOp) :
    Decidable (crashSafe target initial ops) := by
  unfold crashSafe; infer_instance

/-- Any number of successive `_append_history` calls, oldest first. -/
noncomputable def append_all (fs : FileState) (entries : List Entry) : FileState :=
  entries.foldl append_history fs

/-- A loaded model whose `feature_names_in_` attribute is present. -/
def demoModel : MLModel :=
  { feature_names := some ["Temperature_C", "Humidity_%", "Type_Apple", "Type_Banana"],
    predictFn := fun _ => 10 }

/-- A loaded model missing the `feature_names_in_` attribute. -/
def schemalessModel : MLModel :=
  { feature_names := none, predictFn := fun _ => 0 }

/-- A schema-valid loaded model that always predicts a negative day count. -/
def negModel : MLModel :=
  { feature_names := some ["Temperature_C", "Humidity_%", "Type_Apple"],
    predictFn := fun _ => -1 }

/-- The `KINETIC_DATA` row for `"apple"`. -/
noncomputable def appleParams : KineticParams :=
  { Ea := 70000.0, A := 2.0e11, ref_life_days := 60 }

/-- A history entry with every optional field absent. -/
def blankEntry : Entry := { batch_id := none }

/-- A two-sample window of sub-zero temperature readings at steady humidity. -/
def subzeroReadings : List Reading :=
  [{ temperature := some (-5), humidity := some 90 },
   { temperature := some (-15), humidity := some 90 }]

/- ----------------------------- Helper lemmas -------------------------- -/

theorem lastN_eq_reverse_take (n : ℕ) (l : List α) :
    lastN n l = (l.reverse.take n).reverse := by
  rw [lastN, List.take_reverse, List.reverse_reverse]

theorem length_lastN_le (n : ℕ) (l : List α) : (lastN n l).length ≤ n := by
  simp only [lastN, List.length_drop]
  omega

theorem lastN_of_length_le {n : ℕ} {l : List α} (h : l.length ≤ n) : lastN n l = l := by
  simp [lastN, Nat.sub_eq_zero_of_le h]

theorem lastN_lastN_append (n : ℕ) (x y : List α) :
    lastN n (lastN n x ++ y) = lastN n (x ++ y) := by
  simp only [lastN_eq_reverse_take, List.reverse_append, List.reverse_reverse,
    List.take_append_eq_append_take, List.take_take, List.length_reverse]
  rw [min_eq_left (Nat.sub_le n y.length)]

theorem alpha_override_eq (s m o : ℝ) :
    calculate_alpha s m (some o) = max 0.0 (min 1.0 o) := rfl

theorem alpha_bounds (s m : ℝ) :
    0.1 ≤ calculate_alpha s m none ∧ calculate_alpha s m none ≤ 0.8 := by
  unfold calculate_alpha
  refine ⟨le_max_left _ _,
    max_le (by norm_num [ALPHA_CONFIG]) ((min_le_left _ _).trans (by norm_num [ALPHA_CONFIG]))⟩

theorem alpha_mem_unit (s m : ℝ) (ao : Option ℝ) :
    0 ≤ calculate_alpha s m ao ∧ calculate_alpha s m ao ≤ 1 := by
  cases ao with
  | none =>
    obtain ⟨h1, h2⟩ := alpha_bounds s m
    constructor <;> linarith
  | some o =>
    constructor
    · exact le_trans (by norm_num) (le_max_left (0.0 : ℝ) (min 1.0 o))
    · exact max_le (by norm_num) ((min_le_left _ _).trans (by norm_num))

theorem kinetic_params_pos (fruit : String) (p : KineticParams)
    (h : KINETIC_DATA fruit = some p) : 0 < p.A ∧ 0 < p.ref_life_days := by
  unfold KINETIC_DATA at h
  split at h <;>
    first
    | exact Option.noConfusion h
    | (cases h; exact ⟨by norm_num, by norm_num⟩)

theorem arrhenius_rate_pos {Ea A t : ℝ} (hA : 0 < A) :
    0 < arrhenius_rate_constant Ea A t :=
  mul_pos hA (Real.exp_pos _)

theorem humidity_factor_pos (h : ℝ) : 0 < humidity_factor h := Real.exp_pos _

theorem humidity_factor_le_one (h : ℝ) : humidity_factor h ≤ 1 := by
  show Real.exp (-0.02 * |max 30.0 (min 100.0 h) - OPTIMAL_RH| ^ (1.2 : ℝ)) ≤ 1
  rw [Real.exp_le_one_iff]
  have hd : (0:ℝ) ≤ |max 30.0 (min 100.0 h) - OPTIMAL_RH| ^ (1.2 : ℝ) :=
    Real.rpow_nonneg (abs_nonneg _) _
  nlinarith

theorem humidity_factor_eq_one_iff (h : ℝ) :
    humidity_factor h = 1 ↔ max 30.0 (min 100.0 h) = OPTIMAL_RH := by
  show Real.exp (-0.02 * |max 30.0 (min 100.0 h) - OPTIMAL_RH| ^ (1.2 : ℝ)) = 1 ↔ _
  rw [Real.exp_eq_one_iff, mul_eq_zero,
    Real.rpow_eq_zero_iff_of_nonneg (abs_nonneg _)]
  constructor
  · rintro (h0 | ⟨h1, _⟩)
    · norm_num at h0
    · rw [abs_eq_zero, sub_eq_zero] at h1
      exact h1
  · intro he
    refine Or.inr ⟨?_, by norm_num⟩
    rw [abs_eq_zero, sub_eq_zero]
    exact he

theorem arrhenius_ok_pos {fruit : String} {t h v : ℝ}
    (hv : arrhenius_prediction fruit t h = .ok v) : 0 < v := by
  unfold arrhenius_prediction at hv
  cases hk : KINETIC_DATA fruit with
  | none => rw [hk] at hv; exact Except.noConfusion hv
  | some p =>
    rw [hk] at hv
    obtain ⟨hA, href⟩ := kinetic_params_pos fruit p hk
    have hveq : v = p.ref_life_days *
        (arrhenius_rate_constant p.Ea p.A T_REF_K /
          arrhenius_rate_constant p.Ea p.A (t + 273.15)) * humidity_factor h := by
      injection hv with hv
      exact hv.symm
    rw [hveq]
    exact mul_pos
      (mul_pos href (div_pos (arrhenius_rate_pos hA) (arrhenius_rate_pos hA)))
      (humidity_factor_pos h)

set_option maxRecDepth 4000 in
theorem load_append_all (fs : FileState) (es : List Entry)
    (h : (load_history fs).length ≤ ALPHA_CONFIG.history_limit) :
    load_history (append_all fs es) =
      lastN ALPHA_CONFIG.history_limit (load_history fs ++ es) := by
  induction es generalizing fs with
  | nil => simp [append_all, lastN_of_length_le h]
  | cons e es ih =>
    have hstep : load_history (append_history fs e) =
        lastN ALPHA_CONFIG.history_limit (load_history fs ++ [e]) := rfl
    have h2 : (load_history (append_history fs e)).length ≤ ALPHA_CONFIG.history_limit := by
      rw [hstep]; exact length_lastN_le _ _
    calc load_history (append_all fs (e :: es))
        = load_history (append_all (append_history fs e) es) := rfl
      _ = lastN ALPHA_CONFIG.history_limit (load_history (append_history fs e) ++ es) := ih _ h2
      _ = lastN ALPHA_CONFIG.history_limit
            (lastN ALPHA_CONFIG.history_limit (load_history fs ++ [e]) ++ es) := by rw [hstep]
      _ = lastN ALPHA_CONFIG.history_limit ((load_history fs ++ [e]) ++ es) :=
            lastN_lastN_append _ _ _
      _ = lastN ALPHA_CONFIG.history_limit (load_history fs ++ e :: es) := by
            rw [List.append_assoc, List.singleton_append]

/- ----------------------------- Claim theorems ------------------------- -/

/-- C1: for every successful call to `predict`, the returned hybrid
prediction equals exactly `alpha * kinetic + (1 - alpha) * regressor`, where
`alpha` is the blend weight reported in the same result. -/
theorem hybrid_is_exact_alpha_blend (model : MLModel) (fs : FileState)
    (product_type : String) (temperature_c humidity_percent : ℝ)
    (sensor_readings : List Reading) (alpha_override : Option ℝ)
    (batch_id : Option String) :
    onOk (fun r => r.hybrid_prediction =
        r.alpha_used * r.arrhenius_prediction + (1 - r.alpha_used) * r.ml_prediction)
      (predict model fs product_type temperature_c humidity_percent
        sensor_readings alpha_override batch_id).1 := by
  unfold predict
  dsimp only
  split
  · trivial
  · split
    · trivial
    · exact rfl

/-- C2: without an override the blend weight always lies in the configured
closed interval `[0.1, 0.8]`; with a caller-supplied override it equals
exactly the override clamped to `[0, 1]`, for any confidence scores. -/
theorem alpha_bounded_or_exact_clamped_override (sensor_stability ml_performance : ℝ) :
    (0.1 ≤ calculate_alpha sensor_stability ml_performance none ∧
      calculate_alpha sensor_stability ml_performance none ≤ 0.8 ∧
      ALPHA_CONFIG.min = 0.1 ∧ ALPHA_CONFIG.max = 0.8) ∧
    ∀ o : ℝ, calculate_alpha sensor_stability ml_performance (some o) =
      max 0.0 (min 1.0 o) := by
  obtain ⟨h1, h2⟩ := alpha_bounds sensor_stability ml_performance
  exact ⟨⟨h1, h2, rfl, rfl⟩, fun o => rfl⟩

/-- C5: whenever a `predict` call fails, the persisted history is left
unchanged — the history file state after the call equals the one before it,
so no entry is appended unless both sub-predictions succeed. -/
theorem failed_predict_leaves_history_unchanged (model : MLModel) (fs : FileState)
    (product_type : String) (temperature_c humidity_percent : ℝ)
    (sensor_readings : List Reading) (alpha_override : Option ℝ)
    (batch_id : Option String) :
    (predict model fs product_type temperature_c humidity_percent
        sensor_readings alpha_override batch_id).1.isOk = false →
    (predict model fs product_type temperature_c humidity_percent
        sensor_readings alpha_override batch_id).2.1 = fs := by
  unfold predict
  dsimp only
  split
  · intro _; rfl
  · split
    · intro _; rfl
    · intro hk
      simp [Except.isOk, Except.toBool] at hk

/-- C5 witness: a model with no feature metadata makes the call fail and the
stored history is untouched. -/
theorem failed_predict_leaves_history_unchanged_witness :
    ((predict schemalessModel (.stored []) "apple" 0 0 [] none none).1.isOk = false) ∧
    (predict schemalessModel (.stored []) "apple" 0 0 [] none none).2.1 = .stored [] :=
  ⟨rfl, failed_predict_leaves_history_unchanged schemalessModel (.stored [])
    "apple" 0 0 [] none none rfl⟩

/-- C7: starting from a stored history within the retention window, any
number of appends leaves at most `ALPHA_CONFIG.history_limit = 120` entries,
and the store holds exactly the most recent entries of the full append
sequence in their original order (oldest dropped, FIFO). -/
theorem history_bounded_and_fifo (fs : FileState) (es : List Entry)
    (h : (load_history fs).length ≤ ALPHA_CONFIG.history_limit) :
    (load_history (append_all fs es)).length ≤ ALPHA_CONFIG.history_limit ∧
    load_history (append_all fs es) =
      lastN ALPHA_CONFIG.history_limit (load_history fs ++ es) ∧
    ALPHA_CONFIG.history_limit = 120 := by
  refine ⟨?_, load_append_all fs es h, rfl⟩
  rw [load_append_all fs es h]
  exact length_lastN_le _ _

/-- C7 witness: three appends to an empty store keep all three entries in
order and stay within the window. -/
theorem history_bounded_and_fifo_witness :
    ((load_history (.stored [])).length ≤ ALPHA_CONFIG.history_limit) ∧
    ((load_history (append_all (.stored []) [blankEntry, blankEntry, blankEntry])).length ≤ ALPHA_CONFIG.history_limit ∧
     load_history (append_all (.stored []) [blankEntry, blankEntry, blankEntry]) =
       lastN ALPHA_CONFIG.history_limit (load_history (.stored []) ++ [blankEntry, blankEntry, blankEntry]) ∧
     ALPHA_CONFIG.history_limit = 120) :=
  ⟨Nat.zero_le _, history_bounded_and_fifo (.stored []) [blankEntry, blankEntry, blankEntry] (Nat.zero_le _)⟩

/-- C8: an unreadable or malformed history file loads as the empty history;
a `predict` call on a corrupt file returns exactly what it would return on an
empty stored history (the storage error is never surfaced), and any
successful result reports the default ML-performance score `0.5`. -/
theorem corrupt_history_degrades_to_default_confidence :
    load_history .corrupt = [] ∧
    ∀ (model : MLModel) (product_type : String)
      (temperature_c humidity_percent : ℝ) (sensor_readings : List Reading)
      (alpha_override : Option ℝ) (batch_id : Option String),
      (predict model .corrupt product_type temperature_c humidity_percent
          sensor_readings alpha_override batch_id).1 =
        (predict model (.stored []) product_type temperature_c humidity_percent
          sensor_readings alpha_override batch_id).1 ∧
      onOk (fun r => r.ml_performance = 0.5)
        (predict model .corrupt product_type temperature_c humidity_percent
          sensor_readings alpha_override batch_id).1 := by
  refine ⟨rfl, fun model pt t h sr ao b => ⟨?_, ?_⟩⟩
  · unfold predict
    dsimp only [load_history]
    split
    · rfl
    · split
      · rfl
      · rfl
  · unfold predict
    dsimp only [load_history]
    split
    · trivial
    · split
      · trivial
      · exact rfl

/-- C3 (code bug): on a two-reading window whose temperatures have a negative
mean, the sensor stability score exceeds 1 — the code floors each sub-score
at 0 but never caps the result, so the specified range [0, 1] is violated. -/
theorem sensor_stability_exceeds_one_on_subzero_window :
    1 < assess_sensor_stability subzeroReadings 0 0 := by
  have hm1 : mean [(-5 : ℝ), -15] = -10 := by norm_num [mean]
  have hm2 : mean [(90 : ℝ), 90] = 90 := by norm_num [mean]
  have hs1 : std [(-5 : ℝ), -15] = 5 := by
    unfold std
    rw [hm1]
    norm_num [List.sum_cons, List.sum_nil]
    rw [show (25 : ℝ) = 5 ^ 2 by norm_num]
    exact Real.sqrt_sq (by norm_num)
  have hs2 : std [(90 : ℝ), 90] = 0 := by
    unfold std
    rw [hm2]
    norm_num [List.sum_cons, List.sum_nil, Real.sqrt_zero]
  unfold assess_sensor_stability subzeroReadings
  dsimp only
  simp only [List.map_cons, List.map_nil, Option.getD_some, List.length_cons,
    List.length_nil]
  rw [if_neg (by norm_num)]
  rw [hm1, hm2, hs1, hs2]
  rw [max_eq_right (by norm_num : (0.0 : ℝ) ≤ 1 - 5 / (-10 + 1e-6) * 10),
    max_eq_right (by norm_num : (0.0 : ℝ) ≤ 1 - 0 / (90 + 1e-6) * 5)]
  norm_num

/-- C4 counterexample: for the unsupported product "kiwi" with a schema-valid
model, `predict` raises, but the learned regressor has already produced a
prediction before the error — contradicting the claim that neither sub-model
is invoked. -/
theorem unsupported_product_error_after_regressor_ran :
    ((predict demoModel .absent "kiwi" 0 50 [] none none).1.isOk = false) ∧
    (predict demoModel .absent "kiwi" 0 50 [] none none).2.2 = [SubModel.regressor] :=
  ⟨rfl, rfl⟩

/-- C4 (amended): for every product type with no kinetic profile (after
lower-casing), `predict` raises an error and the kinetic model is never
invoked; however, whenever the loaded model carries feature metadata, the
learned regressor IS invoked (produces a prediction) before the error. -/
theorem unsupported_product_always_errors_without_kinetic (model : MLModel)
    (fs : FileState) (product_type : String) (temperature_c humidity_percent : ℝ)
    (sensor_readings : List Reading) (alpha_override : Option ℝ)
    (batch_id : Option String)
    (hk : KINETIC_DATA (pyStripLower product_type) = none) :
    (predict model fs product_type temperature_c humidity_percent
        sensor_readings alpha_override batch_id).1.isOk = false ∧
    SubModel.kinetic ∉ (predict model fs product_type temperature_c humidity_percent
        sensor_readings alpha_override batch_id).2.2 ∧
    ∀ cols, model.feature_names = some cols →
      (predict model fs product_type temperature_c humidity_percent
          sensor_readings alpha_override batch_id).2.2 = [SubModel.regressor] := by
  unfold predict
  dsimp only
  cases hfn : model.feature_names with
  | none =>
    have hml : ml_prediction model (pyStripLower product_type) temperature_c humidity_percent =
        .error "Loaded ML model is missing feature metadata" := by
      unfold ml_prediction
      rw [hfn]
    rw [hml]
    refine ⟨rfl, by simp, fun cols hc => ?_⟩
    exact Option.noConfusion hc
  | some cols0 =>
    have hml : ml_prediction model (pyStripLower product_type) temperature_c humidity_percent =
        .ok (model.predictFn
          (feature_row cols0 (pyStripLower product_type) temperature_c humidity_percent)) := by
      unfold ml_prediction
      rw [hfn]
    have harr : arrhenius_prediction (pyStripLower product_type) temperature_c humidity_percent =
        .error ("Unsupported product type '" ++ (pyStripLower product_type) ++
          "' for shelf-life prediction") := by
      unfold arrhenius_prediction
      rw [hk]
    rw [hml, harr]
    exact ⟨rfl, by simp, fun _ _ => rfl⟩

/-- C4 witness for the amended claim at the concrete product "kiwi". -/
theorem unsupported_product_always_errors_without_kinetic_witness :
    (KINETIC_DATA (pyStripLower "kiwi") = none) ∧
    ((predict demoModel .absent "kiwi" 0 50 [] none none).1.isOk = false ∧
     SubModel.kinetic ∉ (predict demoModel .absent "kiwi" 0 50 [] none none).2.2 ∧
     ∀ cols, demoModel.feature_names = some cols →
       (predict demoModel .absent "kiwi" 0 50 [] none none).2.2 = [SubModel.regressor]) :=
  ⟨rfl, unsupported_product_always_errors_without_kinetic demoModel .absent
    "kiwi" 0 50 [] none none rfl⟩

/-- C6 counterexample: with a loaded model that outputs a negative value, a
`predict` call succeeds while its regressor sub-prediction is negative —
nothing in the code clamps the regressor output. -/
theorem successful_predict_with_negative_regressor :
    ((predict negModel (.stored []) "apple" 5 90 [] none none).1.isOk = true) ∧
    onOk (fun r => r.ml_prediction < 0)
      (predict negModel (.stored []) "apple" 5 90 [] none none).1 := by
  refine ⟨rfl, ?_⟩
  show (-1 : ℝ) < 0
  norm_num

/-- C6 (amended): on every successful `predict` call the kinetic
sub-prediction is non-negative, and whenever the regressor sub-prediction is
non-negative the blended prediction is non-negative as well; the regressor
sub-prediction itself is unconstrained by the code. -/
theorem kinetic_nonneg_and_hybrid_nonneg_of_ml_nonneg (model : MLModel)
    (fs : FileState) (product_type : String) (temperature_c humidity_percent : ℝ)
    (sensor_readings : List Reading) (alpha_override : Option ℝ)
    (batch_id : Option String) :
    onOk (fun r => 0 ≤ r.arrhenius_prediction ∧
        (0 ≤ r.ml_prediction → 0 ≤ r.hybrid_prediction))
      (predict model fs product_type temperature_c humidity_percent
        sensor_readings alpha_override batch_id).1 := by
  unfold predict
  dsimp only
  cases hml : ml_prediction model (pyStripLower product_type) temperature_c humidity_percent with
  | error e => trivial
  | ok mlv =>
    cases harr : arrhenius_prediction (pyStripLower product_type) temperature_c humidity_percent with
    | error e => trivial
    | ok arrv =>
      refine ⟨le_of_lt (arrhenius_ok_pos harr), fun hml0 => ?_⟩
      obtain ⟨ha0, ha1⟩ := alpha_mem_unit
        (assess_sensor_stability sensor_readings temperature_c humidity_percent)
        (assess_ml_performance (load_history fs)) alpha_override
      exact add_nonneg
        (mul_nonneg ha0 (le_of_lt (arrhenius_ok_pos harr)))
        (mul_nonneg (by linarith) hml0)

/-- C9 (code bug): `_save_history` persists with a single in-place
`write_text` of the history file — not a write-to-temporary-file-then-rename —
and an interrupted write can leave the file holding a strict prefix of the
new payload, which is neither the complete old nor the complete new
contents. -/
theorem save_history_single_direct_write_not_crash_safe :
    save_history_ops "shelf_life_history.json" "[42]" =
      [FSOp.write "shelf_life_history.json" "[42]"] ∧
    ¬ crashSafe "shelf_life_history.json" "[]"
        (save_history_ops "shelf_life_history.json" "[42]") :=
  ⟨rfl, by decide⟩

/-- C10: the humidity adjustment factor is always in (0, 1] and equals 1
exactly when the clamped humidity equals the optimal `OPTIMAL_RH = 90`;
consequently the kinetic prediction never exceeds the purely
temperature-scaled reference shelf life. -/
theorem humidity_factor_bounds_kinetic_prediction (humidity : ℝ) :
    (0 < humidity_factor humidity ∧ humidity_factor humidity ≤ 1 ∧
      (humidity_factor humidity = 1 ↔ max 30.0 (min 100.0 humidity) = OPTIMAL_RH)) ∧
    ∀ (fruit : String) (temp_c : ℝ) (p : KineticParams),
      KINETIC_DATA fruit = some p →
      onOk (fun v => v ≤ p.ref_life_days *
          (arrhenius_rate_constant p.Ea p.A T_REF_K /
            arrhenius_rate_constant p.Ea p.A (temp_c + 273.15)))
        (arrhenius_prediction fruit temp_c humidity) := by
  refine ⟨⟨humidity_factor_pos humidity, humidity_factor_le_one humidity,
    humidity_factor_eq_one_iff humidity⟩, fun fruit temp_c p hk => ?_⟩
  obtain ⟨hA, href⟩ := kinetic_params_pos fruit p hk
  unfold arrhenius_prediction
  rw [hk]
  exact mul_le_of_le_one_right
    (le_of_lt (mul_pos href (div_pos (arrhenius_rate_pos hA) (arrhenius_rate_pos hA))))
    (humidity_factor_le_one humidity)

/-- C10 witness at product "apple", temperature 20 °C, humidity 55 %. -/
theorem humidity_factor_bounds_kinetic_prediction_witness :
    KINETIC_DATA "apple" = some appleParams ∧
    onOk (fun v => v ≤ appleParams.ref_life_days *
        (arrhenius_rate_constant appleParams.Ea appleParams.A T_REF_K /
          arrhenius_rate_constant appleParams.Ea appleParams.A ((20 : ℝ) + 273.15)))
      (arrhenius_prediction "apple" 20 55) :=
  ⟨rfl, (humidity_factor_bounds_kinetic_prediction 55).2 "apple" 20 appleParams rfl⟩

end ShelfLife
